import Mathlib

/- Verification of fix_aircraft_fov.py.

   The script is embedded shallowly:
   * a parsed config document is a list of sections, each a header plus
     ordered key/value entries (`CasePreservingConfigParser` keeps option
     names exactly as written, so keys are compared verbatim);
   * a `pathlib.Path` is split, as pathlib does, into the part before the
     final suffix and the suffix itself;
   * the filesystem is a map from paths to optional file contents, and the
     run statistics dictionary `FILE_STATS` is passed explicitly;
   * library calls whose outcome depends on the environment (the configparser
     text parser, `config.write` serialization, and whether `shutil.copy2`,
     `open(..., "w")` or `os.remove` raise) are fields of an `Env` record;
   * a `try`/`except Exception` block is translated by branching on those
     outcomes, the except-branch effects applied on the failing outcomes. -/

/-- One parsed config section: the section header and the ordered key/value
    entries.  `CasePreservingConfigParser.optionxform` is the identity
    (fix_aircraft_fov.py lines 19-25), so keys are matched exactly. -/
structure CSection where
  header : String
  entries : List (String × String)
deriving DecidableEq, Repr

/-- Exact-key lookup in a section's entries (Python dict lookup; parsed
    sections have unique keys, the first hit is the value). -/
def lookupEntries : List (String × String) → String → Option String
  | [], _ => none
  | (k, v) :: rest, key => if k = key then some v else lookupEntries rest key

/-- Python dict assignment `d[key] = v`: replace the value at an existing key
    in place, or append a new entry at the end. -/
def setEntries : List (String × String) → String → String → List (String × String)
  | [], key, v => [(key, v)]
  | (k, w) :: rest, key, v =>
    if k = key then (key, v) :: rest else (k, w) :: setEntries rest key v

def CSection.lookupKey (s : CSection) (key : String) : Option String :=
  lookupEntries s.entries key

def CSection.setKey (s : CSection) (key v : String) : CSection :=
  { s with entries := setEntries s.entries key v }

/-- `section_matches_camera` (fix_aircraft_fov.py lines 82-96):
    `"Title" in config[section] and (config[section]["Title"] == camera_name
     or config[section]["Title"] == f camera_name in double quotes)`. -/
def section_matches_camera (s : CSection) (cameraName : String) : Bool :=
  match s.lookupKey "Title" with
  | none => false
  | some t => t == cameraName || t == "\"" ++ cameraName ++ "\""

/-- Which message `modify_section_initialzoom` prints for a section. -/
inductive ZoomReport
  | warningNoInitialZoom
  | infoAlreadySet
  | dryRunWouldModify
  | modifiedReport
deriving DecidableEq, Repr

/-- `modify_section_initialzoom` (fix_aircraft_fov.py lines 99-127).
    `zoomStr` stands for the Python string `str(camera_zoom)`: the source
    compares against it and stores exactly it, nothing numeric happens.
    Returns the updated section, the boolean the source returns, and the
    message kind printed. -/
def modify_section_initialzoom (dryRun : Bool) (s : CSection) (zoomStr : String) :
    CSection × Bool × ZoomReport :=
  match s.lookupKey "InitialZoom" with
  | none => (s, false, .warningNoInitialZoom)
  | some originalZoom =>
    if originalZoom = zoomStr then (s, false, .infoAlreadySet)
    else if dryRun then (s, true, .dryRunWouldModify)
    else (s.setKey "InitialZoom" zoomStr, true, .modifiedReport)

/-- The section loop of `modify_single_camera_cfg` (fix_aircraft_fov.py
    lines 151-158): visit every section in order, rewriting the matching
    ones.  Returns the updated section list, whether any section was
    modified, and whether any section matched by title. -/
def modify_config_sections (dryRun : Bool) (cameraName zoomStr : String) :
    List CSection → List CSection × Bool × Bool
  | [] => ([], false, false)
  | s :: rest =>
    let tail := modify_config_sections dryRun cameraName zoomStr rest
    if section_matches_camera s cameraName then
      let r := modify_section_initialzoom dryRun s zoomStr
      (r.1 :: tail.1, r.2.1 || tail.2.1, true)
    else
      (s :: tail.1, tail.2.1, tail.2.2)

/-- A `pathlib.Path`, split as pathlib splits a path: everything before the
    final suffix, and the suffix.  `with_suffix` replaces the suffix. -/
structure PyPath where
  stem : String
  suffix : String
deriving DecidableEq, Repr

def PyPath.with_suffix (p : PyPath) (s : String) : PyPath :=
  { p with suffix := s }

/-- The Python test `s.startswith(".")`: the first character is a dot. -/
def startsWithDot (s : String) : Bool :=
  match s.data with
  | [] => false
  | c :: _ => c = '.'

/-- `get_backup_file_path` (fix_aircraft_fov.py lines 51-63). -/
def get_backup_file_path (file_path : PyPath) (backup_ext : String) : PyPath :=
  let ext := if startsWithDot backup_ext then backup_ext else "." ++ backup_ext
  file_path.with_suffix (file_path.suffix ++ ext)

/-- The filesystem: which contents, if any, each path currently holds. -/
abbrev FS := PyPath → Option String

def fsWrite (fs : FS) (p : PyPath) (c : String) : FS :=
  fun q => if q = p then some c else fs q

def fsRemove (fs : FS) (p : PyPath) : FS :=
  fun q => if q = p then none else fs q

/-- The environment a run executes in: the configparser text parser (first
    argument the strict flag; `none` models a raised parse error such as a
    strict-mode duplicate section or key), the `config.write` serializer,
    and which I/O calls raise (`shutil.copy2`, writing via `open(..., "w")`,
    `os.remove`). -/
structure Env where
  parse : Bool → String → Option (List CSection)
  serialize : List CSection → String
  copyFails : PyPath → PyPath → Bool
  writeFails : PyPath → Bool
  removeFails : PyPath → Bool

/-- `config.read(file_path)` on a discovered path: a file that cannot be
    opened is silently ignored by configparser (empty document); otherwise
    the text is parsed, which may raise. -/
def read_config (env : Env) (strict : Bool) (fs : FS) (p : PyPath) :
    Option (List CSection) :=
  match fs p with
  | none => some []
  | some c => env.parse strict c

/-- The `FILE_STATS` counters. -/
structure Stats where
  total : Nat
  modified : Nat
  unchanged : Nat
  errors : Nat
deriving DecidableEq, Repr

def Stats.addModified (s : Stats) : Stats := { s with modified := s.modified + 1 }

def Stats.addUnchanged (s : Stats) : Stats := { s with unchanged := s.unchanged + 1 }

def Stats.addErrors (s : Stats) : Stats := { s with errors := s.errors + 1 }

/-- `modify_single_camera_cfg` (fix_aircraft_fov.py lines 130-180).  The
    whole body sits in one `try`; an exception from parsing, from the backup
    copy, or from the rewrite is caught by the `except`, which adds one to
    `errors`.  `modified` is incremented between the backup and the rewrite
    (lines 166-173). -/
def modify_single_camera_cfg (env : Env) (dryRun : Bool)
    (cameraName zoomStr backupExt : String) (disableStrict : Bool)
    (fs : FS) (st : Stats) (p : PyPath) : FS × Stats :=
  match read_config env (!disableStrict) fs p with
  | none => (fs, st.addErrors)
  | some doc =>
    let r := modify_config_sections dryRun cameraName zoomStr doc
    if r.2.1 then
      let bp := get_backup_file_path p backupExt
      if dryRun then
        (fs, st.addModified)
      else if env.copyFails p bp then
        (fs, st.addErrors)
      else
        let fs1 := match fs p with
          | some c => fsWrite fs bp c
          | none => fs
        if env.writeFails p then
          (fs1, st.addModified.addErrors)
        else
          (fsWrite fs1 p (env.serialize r.1), st.addModified)
    else
      (fs, st.addUnchanged)

/-- `restore_single_camera_cfg` (fix_aircraft_fov.py lines 206-235).  The
    `try` wraps only the copy and the remove; the `modified` increment on
    line 230 sits after the `except`, inside the backup-exists branch, so it
    runs whether or not the restore raised. -/
def restore_single_camera_cfg (env : Env) (dryRun : Bool) (backupExt : String)
    (fs : FS) (st : Stats) (p : PyPath) : FS × Stats :=
  let bp := get_backup_file_path p backupExt
  match fs bp with
  | none => (fs, st.addUnchanged)
  | some c =>
    if dryRun then
      (fs, st.addModified)
    else if env.copyFails bp p then
      (fs, st.addErrors.addModified)
    else if env.removeFails bp then
      (fsWrite fs p c, st.addErrors.addModified)
    else
      (fsRemove (fsWrite fs p c) bp, st.addModified)

/-- The per-file loop of `find_and_modify_cameras` (lines 197-198). -/
def process_modify (env : Env) (dryRun : Bool)
    (cameraName zoomStr backupExt : String) (disableStrict : Bool) :
    FS → Stats → List PyPath → FS × Stats
  | fs, st, [] => (fs, st)
  | fs, st, p :: ps =>
    let r := modify_single_camera_cfg env dryRun cameraName zoomStr backupExt
      disableStrict fs st p
    process_modify env dryRun cameraName zoomStr backupExt disableStrict r.1 r.2 ps

/-- `find_and_modify_cameras` (fix_aircraft_fov.py lines 183-203): reset the
    counters, set `total` to the number of discovered files, then process
    each file in turn. -/
def find_and_modify_cameras (env : Env) (dryRun : Bool)
    (cameraName zoomStr backupExt : String) (disableStrict : Bool)
    (fs : FS) (paths : List PyPath) : FS × Stats :=
  process_modify env dryRun cameraName zoomStr backupExt disableStrict fs
    ⟨paths.length, 0, 0, 0⟩ paths

/-- The per-file loop of `find_and_restore_cameras` (lines 252-253). -/
def process_restore (env : Env) (dryRun : Bool) (backupExt : String) :
    FS → Stats → List PyPath → FS × Stats
  | fs, st, [] => (fs, st)
  | fs, st, p :: ps =>
    let r := restore_single_camera_cfg env dryRun backupExt fs st p
    process_restore env dryRun backupExt r.1 r.2 ps

/-- `find_and_restore_cameras` (fix_aircraft_fov.py lines 238-258). -/
def find_and_restore_cameras (env : Env) (dryRun : Bool) (backupExt : String)
    (fs : FS) (paths : List PyPath) : FS × Stats :=
  process_restore env dryRun backupExt fs ⟨paths.length, 0, 0, 0⟩ paths

/- Basic lemmas about entry lookup and update. -/

theorem lookupEntries_setEntries_self (es : List (String × String)) (k v : String) :
    lookupEntries (setEntries es k v) k = some v := by
  induction es with
  | nil => simp [setEntries, lookupEntries]
  | cons kw rest ih =>
    obtain ⟨k0, w0⟩ := kw
    by_cases h : k0 = k <;> simp [setEntries, lookupEntries, h, ih]

theorem lookupEntries_setEntries_other (es : List (String × String))
    (k k' v : String) (hne : k' ≠ k) :
    lookupEntries (setEntries es k v) k' = lookupEntries es k' := by
  induction es with
  | nil => simp [setEntries, lookupEntries, Ne.symm hne]
  | cons kw rest ih =>
    obtain ⟨k0, w0⟩ := kw
    by_cases h : k0 = k
    · subst h
      simp [setEntries, lookupEntries, Ne.symm hne]
    · simp [setEntries, lookupEntries, h, ih]

theorem lookupKey_setKey_self (s : CSection) (k v : String) :
    (s.setKey k v).lookupKey k = some v :=
  lookupEntries_setEntries_self s.entries k v

theorem lookupKey_setKey_other (s : CSection) (k k' v : String) (hne : k' ≠ k) :
    (s.setKey k v).lookupKey k' = s.lookupKey k' :=
  lookupEntries_setEntries_other s.entries k k' v hne

/-- Rewriting `InitialZoom` does not disturb the `Title` key, so whether a
    section matches the camera is stable under `modify_section_initialzoom`. -/
theorem section_matches_modify (dryRun : Bool) (s : CSection)
    (zoomStr cameraName : String) :
    section_matches_camera (modify_section_initialzoom dryRun s zoomStr).1 cameraName
      = section_matches_camera s cameraName := by
  unfold modify_section_initialzoom
  cases h : s.lookupKey "InitialZoom" with
  | none => rfl
  | some v =>
    by_cases hv : v = zoomStr
    · simp [hv]
    · by_cases hd : dryRun
      · simp [hv, hd]
      · have ht : (s.setKey "InitialZoom" zoomStr).lookupKey "Title" = s.lookupKey "Title" :=
          lookupKey_setKey_other s "InitialZoom" "Title" zoomStr (by decide)
        simp [hv, hd, section_matches_camera, ht]

/-- Applying `modify_section_initialzoom` (not in dry-run) a second time with
    the same zoom string changes nothing and reports no modification. -/
theorem modify_section_idem (s : CSection) (zoomStr : String) :
    (modify_section_initialzoom false (modify_section_initialzoom false s zoomStr).1 zoomStr).1
        = (modify_section_initialzoom false s zoomStr).1
    ∧ (modify_section_initialzoom false (modify_section_initialzoom false s zoomStr).1 zoomStr).2.1
        = false := by
  unfold modify_section_initialzoom
  cases h : s.lookupKey "InitialZoom" with
  | none => simp [h]
  | some v =>
    by_cases hv : v = zoomStr
    · simp [h, hv]
    · have hz : (s.setKey "InitialZoom" zoomStr).lookupKey "InitialZoom" = some zoomStr :=
        lookupKey_setKey_self s "InitialZoom" zoomStr
      simp [h, hv, hz]

/-- Running the section loop a second time over its own output (not in
    dry-run) changes nothing: it modifies no section and finds the same
    matches. -/
theorem modify_config_idem (cameraName zoomStr : String) (doc : List CSection) :
    modify_config_sections false cameraName zoomStr
        (modify_config_sections false cameraName zoomStr doc).1
      = ((modify_config_sections false cameraName zoomStr doc).1, false,
         (modify_config_sections false cameraName zoomStr doc).2.2) := by
  induction doc with
  | nil => rfl
  | cons s rest ih =>
    by_cases hm : section_matches_camera s cameraName
    · have hm2 : section_matches_camera
          (modify_section_initialzoom false s zoomStr).1 cameraName = true := by
        rw [section_matches_modify]; exact hm
      have hsec := modify_section_idem s zoomStr
      simp only [modify_config_sections, hm, if_pos]
      simp only [modify_config_sections, hm2, if_pos, ih, hsec.1, hsec.2]
      simp
    · simp only [modify_config_sections, hm]
      simp only [Bool.false_eq_true, if_neg, ih]
      simp [modify_config_sections, hm]

/- Lemmas about backup paths. -/

/-- The normalized backup extension is never the empty string. -/
theorem norm_backup_ext_ne_empty (backup_ext : String) :
    (if startsWithDot backup_ext then backup_ext else "." ++ backup_ext) ≠ "" := by
  by_cases h : startsWithDot backup_ext
  · intro he
    rw [if_pos h] at he
    subst he
    have : startsWithDot "" = false := by decide
    rw [this] at h
    exact Bool.false_ne_true h
  · intro he
    rw [if_neg h] at he
    have hd := congrArg String.data he
    simp [String.data_append] at hd

/-- Appending a nonempty string to a string changes it. -/
theorem string_append_ne_self (s t : String) (ht : t ≠ "") : s ++ t ≠ s := by
  intro h
  have hd := congrArg String.data h
  rw [String.data_append] at hd
  have hnil : t.data = [] := by
    have := congrArg List.length hd
    rw [List.length_append] at this
    have : t.data.length = 0 := by omega
    exact List.length_eq_zero.mp this
  exact ht (String.ext hnil)

theorem get_backup_file_path_stem (p : PyPath) (backup_ext : String) :
    (get_backup_file_path p backup_ext).stem = p.stem := rfl

theorem get_backup_file_path_suffix (p : PyPath) (backup_ext : String) :
    (get_backup_file_path p backup_ext).suffix
      = p.suffix ++ (if startsWithDot backup_ext then backup_ext
                     else "." ++ backup_ext) := rfl

/-- A backup path never coincides with a path carrying the original suffix. -/
theorem get_backup_file_path_ne (p q : PyPath) (backup_ext : String)
    (hsuf : q.suffix = p.suffix) : get_backup_file_path q backup_ext ≠ p := by
  intro he
  have hs := congrArg PyPath.suffix he
  rw [get_backup_file_path_suffix, hsuf] at hs
  exact string_append_ne_self p.suffix _ (norm_backup_ext_ne_empty backup_ext) hs

/-- Two files with the same suffix have the same backup path only if they
    are the same file. -/
theorem get_backup_file_path_inj (p q : PyPath) (backup_ext : String)
    (hsuf : q.suffix = p.suffix)
    (h : get_backup_file_path q backup_ext = get_backup_file_path p backup_ext) :
    q = p := by
  have hstem := congrArg PyPath.stem h
  rw [get_backup_file_path_stem, get_backup_file_path_stem] at hstem
  cases p; cases q
  simp_all

/- Concrete instances used to exercise the theorems. -/

def secPilotStale : CSection :=
  ⟨"CAMERADEFINITION_0", [("Title", "Pilot"), ("InitialZoom", "0.350")]⟩

def docPilotStale : List CSection := [secPilotStale]

def pathEx : PyPath := ⟨"Community/plane/cameras", ".cfg"⟩

def envEx : Env where
  parse := fun _ c => if c = "orig" then some docPilotStale else none
  serialize := fun _ => "rewritten"
  copyFails := fun _ _ => false
  writeFails := fun _ => false
  removeFails := fun _ => false

def fsEx : FS := fun q => if q = pathEx then some "orig" else none

/-- Claim C1: for every parsed section and target zoom, the mutation
    behaves as: with no `InitialZoom` key it warns and skips (no change,
    no error); with the existing value equal to the exact string form of
    the target it skips as already set; otherwise it rewrites the value to
    the target string and reports the section modified.  The comparison is
    exact string equality, so a numerically equal but differently formatted
    value is rewritten. -/
theorem claim_C1_mutation_cases (s : CSection) (zoomStr : String) :
    (s.lookupKey "InitialZoom" = none →
      modify_section_initialzoom false s zoomStr = (s, false, .warningNoInitialZoom))
    ∧ (∀ v, s.lookupKey "InitialZoom" = some v →
        (v = zoomStr →
          modify_section_initialzoom false s zoomStr = (s, false, .infoAlreadySet))
        ∧ (v ≠ zoomStr →
          modify_section_initialzoom false s zoomStr
            = (s.setKey "InitialZoom" zoomStr, true, .modifiedReport)
          ∧ (s.setKey "InitialZoom" zoomStr).lookupKey "InitialZoom" = some zoomStr)) := by
  refine ⟨fun h => by simp [modify_section_initialzoom, h],
    fun v hv => ⟨fun he => by simp [modify_section_initialzoom, hv, he],
      fun hne => ⟨by simp [modify_section_initialzoom, hv, hne],
        lookupKey_setKey_self s "InitialZoom" zoomStr⟩⟩⟩

/-- Witness for C1: the stored value `0.350` is numerically equal to the
    target `0.35` but textually different, so the section is rewritten. -/
theorem claim_C1_mutation_cases_witness :
    secPilotStale.lookupKey "InitialZoom" = some "0.350"
    ∧ "0.350" ≠ "0.35"
    ∧ modify_section_initialzoom false secPilotStale "0.35"
        = (secPilotStale.setKey "InitialZoom" "0.35", true, .modifiedReport)
    ∧ (secPilotStale.setKey "InitialZoom" "0.35").lookupKey "InitialZoom" = some "0.35" :=
  ⟨by decide, by decide,
    (((claim_C1_mutation_cases secPilotStale "0.35").2 "0.350" (by decide)).2 (by decide)).1,
    (((claim_C1_mutation_cases secPilotStale "0.35").2 "0.350" (by decide)).2 (by decide)).2⟩

/-- Claim C7: a section matches the target camera name exactly when it has
    a `Title` key whose value is the name, bare or wrapped in a pair of
    quote characters; `Title=Pilot` and `Title="Pilot"` both match `Pilot`,
    and a section without a `Title` key never matches. -/
theorem claim_C7_title_match (s : CSection) (cameraName : String) :
    (section_matches_camera s cameraName = true
      ↔ ∃ t, s.lookupKey "Title" = some t
          ∧ (t = cameraName ∨ t = "\"" ++ cameraName ++ "\""))
    ∧ (s.lookupKey "Title" = none → section_matches_camera s cameraName = false)
    ∧ section_matches_camera ⟨"A", [("Title", "Pilot")]⟩ "Pilot" = true
    ∧ section_matches_camera ⟨"B", [("Title", "\"Pilot\"")]⟩ "Pilot" = true := by
  refine ⟨?_, fun h => by simp [section_matches_camera, h], by decide, by decide⟩
  unfold section_matches_camera
  cases h : s.lookupKey "Title" with
  | none => simp
  | some t => simp [h]

/-- Witness for C7: a section that has no `Title` key does not match. -/
theorem claim_C7_title_match_witness :
    (CSection.mk "NOTITLE" [("InitialZoom", "0.5")]).lookupKey "Title" = none
    ∧ section_matches_camera ⟨"NOTITLE", [("InitialZoom", "0.5")]⟩ "Pilot" = false :=
  ⟨by decide,
    (claim_C7_title_match ⟨"NOTITLE", [("InitialZoom", "0.5")]⟩ "Pilot").2.1 (by decide)⟩

/-- Claim C8: `get_backup_file_path` normalizes the extension to start with
    a dot when it does not already, appends it after the path's existing
    suffix, and consequently `bak` and `.bak` yield the same backup path
    for every path. -/
theorem claim_C8_backup_path (p : PyPath) (backup_ext : String) :
    (get_backup_file_path p backup_ext).stem = p.stem
    ∧ (startsWithDot backup_ext = true →
        (get_backup_file_path p backup_ext).suffix = p.suffix ++ backup_ext)
    ∧ (startsWithDot backup_ext = false →
        (get_backup_file_path p backup_ext).suffix = p.suffix ++ ("." ++ backup_ext))
    ∧ get_backup_file_path p "bak" = get_backup_file_path p ".bak" := by
  refine ⟨rfl, ?_, ?_, ?_⟩
  · intro h
    rw [get_backup_file_path_suffix, if_pos h]
  · intro h
    rw [get_backup_file_path_suffix, if_neg (by simp [h])]
  · have h1 : startsWithDot "bak" = false := by decide
    have h2 : startsWithDot ".bak" = true := by decide
    have h3 : ("." ++ "bak" : String) = ".bak" := by decide
    simp [get_backup_file_path, PyPath.with_suffix, h1, h2, h3]

/-- Witness for C8: an extension given without the dot. -/
theorem claim_C8_backup_path_witness :
    startsWithDot "bak" = false
    ∧ (get_backup_file_path pathEx "bak").suffix = pathEx.suffix ++ ("." ++ "bak") :=
  ⟨by decide, (claim_C8_backup_path pathEx "bak").2.2.1 (by decide)⟩

/- Branch characterizations of `modify_single_camera_cfg`. -/

/-- A raised parse error is caught: one error counted, filesystem untouched. -/
theorem modify_single_parse_error (env : Env) (dryRun : Bool)
    (cameraName zoomStr backupExt : String) (disableStrict : Bool)
    (fs : FS) (st : Stats) (p : PyPath)
    (h : read_config env (!disableStrict) fs p = none) :
    modify_single_camera_cfg env dryRun cameraName zoomStr backupExt disableStrict fs st p
      = (fs, st.addErrors) := by
  unfold modify_single_camera_cfg
  rw [h]

/-- No section modified: the file is counted unchanged and left alone. -/
theorem modify_single_unchanged (env : Env) (dryRun : Bool)
    (cameraName zoomStr backupExt : String) (disableStrict : Bool)
    (fs : FS) (st : Stats) (p : PyPath) (doc : List CSection)
    (h : read_config env (!disableStrict) fs p = some doc)
    (hm : (modify_config_sections dryRun cameraName zoomStr doc).2.1 = false) :
    modify_single_camera_cfg env dryRun cameraName zoomStr backupExt disableStrict fs st p
      = (fs, st.addUnchanged) := by
  unfold modify_single_camera_cfg
  rw [h]
  simp [hm]

/-- Dry-run with a pending modification: counted modified, nothing written. -/
theorem modify_single_dryrun_modified (env : Env)
    (cameraName zoomStr backupExt : String) (disableStrict : Bool)
    (fs : FS) (st : Stats) (p : PyPath) (doc : List CSection)
    (h : read_config env (!disableStrict) fs p = some doc)
    (hm : (modify_config_sections true cameraName zoomStr doc).2.1 = true) :
    modify_single_camera_cfg env true cameraName zoomStr backupExt disableStrict fs st p
      = (fs, st.addModified) := by
  unfold modify_single_camera_cfg
  rw [h]
  simp [hm]

/-- A raised backup copy is caught: one error counted, filesystem untouched. -/
theorem modify_single_copy_fail (env : Env)
    (cameraName zoomStr backupExt : String) (disableStrict : Bool)
    (fs : FS) (st : Stats) (p : PyPath) (doc : List CSection)
    (h : read_config env (!disableStrict) fs p = some doc)
    (hm : (modify_config_sections false cameraName zoomStr doc).2.1 = true)
    (hc : env.copyFails p (get_backup_file_path p backupExt) = true) :
    modify_single_camera_cfg env false cameraName zoomStr backupExt disableStrict fs st p
      = (fs, st.addErrors) := by
  unfold modify_single_camera_cfg
  rw [h]
  simp [hm, hc]

/-- A rewrite that raises after the backup: `modified` was already counted,
    the `except` then counts an error as well; the backup stays on disk. -/
theorem modify_single_write_fail (env : Env)
    (cameraName zoomStr backupExt : String) (disableStrict : Bool)
    (fs : FS) (st : Stats) (p : PyPath) (doc : List CSection) (c : String)
    (h : read_config env (!disableStrict) fs p = some doc)
    (hm : (modify_config_sections false cameraName zoomStr doc).2.1 = true)
    (hc : env.copyFails p (get_backup_file_path p backupExt) = false)
    (hw : env.writeFails p = true)
    (hp : fs p = some c) :
    modify_single_camera_cfg env false cameraName zoomStr backupExt disableStrict fs st p
      = (fsWrite fs (get_backup_file_path p backupExt) c, st.addModified.addErrors) := by
  unfold modify_single_camera_cfg
  rw [h]
  simp [hm, hc, hw, hp]

/-- The fully successful path: backup written, file rewritten, one
    `modified` counted. -/
theorem modify_single_success (env : Env)
    (cameraName zoomStr backupExt : String) (disableStrict : Bool)
    (fs : FS) (st : Stats) (p : PyPath) (doc : List CSection) (c : String)
    (h : read_config env (!disableStrict) fs p = some doc)
    (hm : (modify_config_sections false cameraName zoomStr doc).2.1 = true)
    (hc : env.copyFails p (get_backup_file_path p backupExt) = false)
    (hw : env.writeFails p = false)
    (hp : fs p = some c) :
    modify_single_camera_cfg env false cameraName zoomStr backupExt disableStrict fs st p
      = (fsWrite (fsWrite fs (get_backup_file_path p backupExt) c) p
           (env.serialize (modify_config_sections false cameraName zoomStr doc).1),
         st.addModified) := by
  unfold modify_single_camera_cfg
  rw [h]
  simp [hm, hc, hw, hp]

/-- An environment whose rewrites raise, used to exercise the failing-write
    path. -/
def envWriteFail : Env := { envEx with writeFails := fun _ => true }

/-- An environment whose parses raise, used to exercise the parse-error
    path. -/
def envParseFail : Env := { envEx with parse := fun _ _ => none }

/-- An environment that parses to a section already holding the target
    value, used to exercise the no-change path. -/
def envAlreadySet : Env :=
  { envEx with parse := fun _ c =>
      if c = "orig"
      then some [⟨"CAMERADEFINITION_0", [("Title", "Pilot"), ("InitialZoom", "0.35")]⟩]
      else none }

/-- A discovered file that cannot be opened is silently ignored by
    `config.read` (empty document), matches nothing, and is therefore
    counted unchanged — not errored. -/
theorem modify_single_unopenable (env : Env) (dryRun : Bool)
    (cameraName zoomStr backupExt : String) (disableStrict : Bool)
    (fs : FS) (st : Stats) (p : PyPath)
    (h : fs p = none) :
    modify_single_camera_cfg env dryRun cameraName zoomStr backupExt disableStrict fs st p
      = (fs, st.addUnchanged) := by
  have hread : read_config env (!disableStrict) fs p = some [] := by
    unfold read_config
    rw [h]
  exact modify_single_unchanged env dryRun cameraName zoomStr backupExt disableStrict
    fs st p [] hread rfl

/-- Claim C3 (amended): in the modify flow a per-file parse failure (a
    configparser exception, strict-mode duplicates included) or I/O error
    (a failing backup copy or a failing rewrite) is caught, counts exactly
    one error for that file, and the batch continues with the next file:
    the remaining files are processed exactly as before, from an untouched
    filesystem (for a failing rewrite, from the filesystem holding the
    already-made backup).  A discovered file that cannot be opened, however,
    is silently ignored by `config.read` and counted as unchanged, not
    errored. -/
theorem claim_C3_error_isolation (env : Env)
    (cameraName zoomStr backupExt : String) (disableStrict : Bool)
    (fs : FS) (st : Stats) (p : PyPath) (ps : List PyPath) :
    (read_config env (!disableStrict) fs p = none →
      process_modify env false cameraName zoomStr backupExt disableStrict fs st (p :: ps)
        = process_modify env false cameraName zoomStr backupExt disableStrict
            fs st.addErrors ps)
    ∧ (∀ doc, read_config env (!disableStrict) fs p = some doc →
        (modify_config_sections false cameraName zoomStr doc).2.1 = true →
        env.copyFails p (get_backup_file_path p backupExt) = true →
        process_modify env false cameraName zoomStr backupExt disableStrict fs st (p :: ps)
          = process_modify env false cameraName zoomStr backupExt disableStrict
              fs st.addErrors ps)
    ∧ (∀ doc c, read_config env (!disableStrict) fs p = some doc →
        (modify_config_sections false cameraName zoomStr doc).2.1 = true →
        env.copyFails p (get_backup_file_path p backupExt) = false →
        env.writeFails p = true →
        fs p = some c →
        process_modify env false cameraName zoomStr backupExt disableStrict fs st (p :: ps)
          = process_modify env false cameraName zoomStr backupExt disableStrict
              (fsWrite fs (get_backup_file_path p backupExt) c)
              st.addModified.addErrors ps)
    ∧ (fs p = none →
        process_modify env false cameraName zoomStr backupExt disableStrict fs st (p :: ps)
          = process_modify env false cameraName zoomStr backupExt disableStrict
              fs st.addUnchanged ps) := by
  refine ⟨fun h => ?_, fun doc h hm hc => ?_, fun doc c h hm hc hw hp => ?_, fun h => ?_⟩
  · show process_modify _ _ _ _ _ _ _ _ (p :: ps) = _
    rw [process_modify,
      modify_single_parse_error env false cameraName zoomStr backupExt disableStrict fs st p h]
  · rw [process_modify,
      modify_single_copy_fail env cameraName zoomStr backupExt disableStrict fs st p doc h hm hc]
  · rw [process_modify,
      modify_single_write_fail env cameraName zoomStr backupExt disableStrict fs st p doc c
        h hm hc hw hp]
  · rw [process_modify,
      modify_single_unopenable env false cameraName zoomStr backupExt disableStrict fs st p h]

/-- A filesystem on which no file can be opened. -/
def fsUnreadable : FS := fun _ => none

/-- Witness for C3: a one-file batch whose parse raises ends with the file
    counted as errored and nothing else, while a one-file batch whose file
    cannot be opened ends with the file counted as unchanged. -/
theorem claim_C3_error_isolation_witness :
    read_config envParseFail (!false) fsEx pathEx = none
    ∧ process_modify envParseFail false "Pilot" "0.35" ".bak" false fsEx
        ⟨1, 0, 0, 0⟩ [pathEx]
        = process_modify envParseFail false "Pilot" "0.35" ".bak" false fsEx
            (Stats.addErrors ⟨1, 0, 0, 0⟩) []
    ∧ fsUnreadable pathEx = none
    ∧ process_modify envEx false "Pilot" "0.35" ".bak" false fsUnreadable
        ⟨1, 0, 0, 0⟩ [pathEx]
        = process_modify envEx false "Pilot" "0.35" ".bak" false fsUnreadable
            (Stats.addUnchanged ⟨1, 0, 0, 0⟩) [] :=
  ⟨rfl,
    (claim_C3_error_isolation envParseFail "Pilot" "0.35" ".bak" false fsEx
      ⟨1, 0, 0, 0⟩ pathEx []).1 rfl,
    rfl,
    (claim_C3_error_isolation envEx "Pilot" "0.35" ".bak" false fsUnreadable
      ⟨1, 0, 0, 0⟩ pathEx []).2.2.2 rfl⟩

/-- Counterexample to claim C3 as stated: a discovered file that cannot be
    opened is NOT counted as errored — `config.read` silently ignores it,
    the resulting empty document needs no change, and the one-file run ends
    with unchanged = 1 and errors = 0. -/
theorem claim_C3_counterexample :
    (find_and_modify_cameras envEx false "Pilot" "0.35" ".bak" false
        fsUnreadable [pathEx]).2.errors = 0
    ∧ (find_and_modify_cameras envEx false "Pilot" "0.35" ".bak" false
        fsUnreadable [pathEx]).2.unchanged = 1 := by
  refine ⟨?_, ?_⟩ <;> decide

/-- Claim C4: a backup is made only when at least one section was actually
    modified.  A file whose matching sections need no change is counted
    unchanged and its processing leaves every path of the filesystem, the
    backup path included, exactly as it was; conversely, any path whose
    content changed implies a real (non-dry-run) modification happened. -/
theorem claim_C4_backup_only_if_modified (env : Env) (dryRun : Bool)
    (cameraName zoomStr backupExt : String) (disableStrict : Bool)
    (fs : FS) (st : Stats) (p : PyPath) :
    (∀ doc, read_config env (!disableStrict) fs p = some doc →
      (modify_config_sections dryRun cameraName zoomStr doc).2.1 = false →
      modify_single_camera_cfg env dryRun cameraName zoomStr backupExt disableStrict fs st p
        = (fs, st.addUnchanged))
    ∧ (∀ q,
        (modify_single_camera_cfg env dryRun cameraName zoomStr backupExt disableStrict
            fs st p).1 q ≠ fs q →
        dryRun = false
        ∧ ∃ doc, read_config env (!disableStrict) fs p = some doc
            ∧ (modify_config_sections dryRun cameraName zoomStr doc).2.1 = true) := by
  constructor
  · intro doc h hm
    exact modify_single_unchanged env dryRun cameraName zoomStr backupExt disableStrict
      fs st p doc h hm
  · intro q hq
    cases hread : read_config env (!disableStrict) fs p with
    | none =>
      rw [modify_single_parse_error env dryRun cameraName zoomStr backupExt disableStrict
        fs st p hread] at hq
      exact absurd rfl hq
    | some doc =>
      by_cases hm : (modify_config_sections dryRun cameraName zoomStr doc).2.1 = true
      · by_cases hd : dryRun = true
        · subst hd
          rw [modify_single_dryrun_modified env cameraName zoomStr backupExt disableStrict
            fs st p doc hread hm] at hq
          exact absurd rfl hq
        · have hd' : dryRun = false := by
            cases dryRun
            · rfl
            · exact absurd rfl hd
          exact ⟨hd', doc, rfl, hm⟩
      · have hm' : (modify_config_sections dryRun cameraName zoomStr doc).2.1 = false := by
          cases hmc : (modify_config_sections dryRun cameraName zoomStr doc).2.1
          · rfl
          · exact absurd hmc hm
        rw [modify_single_unchanged env dryRun cameraName zoomStr backupExt disableStrict
          fs st p doc hread hm'] at hq
        exact absurd rfl hq

/-- Witness for C4: a file whose matching section already holds the target
    value is counted unchanged and no path changes. -/
theorem claim_C4_backup_only_if_modified_witness :
    read_config envAlreadySet (!false) fsEx pathEx
      = some [⟨"CAMERADEFINITION_0", [("Title", "Pilot"), ("InitialZoom", "0.35")]⟩]
    ∧ (modify_config_sections false "Pilot" "0.35"
        [⟨"CAMERADEFINITION_0", [("Title", "Pilot"), ("InitialZoom", "0.35")]⟩]).2.1 = false
    ∧ modify_single_camera_cfg envAlreadySet false "Pilot" "0.35" ".bak" false fsEx
        ⟨1, 0, 0, 0⟩ pathEx
        = (fsEx, Stats.addUnchanged ⟨1, 0, 0, 0⟩) :=
  ⟨rfl, by decide,
    (claim_C4_backup_only_if_modified envAlreadySet false "Pilot" "0.35" ".bak" false fsEx
      ⟨1, 0, 0, 0⟩ pathEx).1 _ rfl (by decide)⟩

/-- Claim C10: `modified` is incremented after a successful backup and
    before the rewrite, so a file whose rewrite then raises is counted both
    modified and errored, and there are runs in which
    total = modified + unchanged + errored fails. -/
theorem claim_C10_modified_counted_before_rewrite (env : Env)
    (cameraName zoomStr backupExt : String) (disableStrict : Bool)
    (fs : FS) (st : Stats) (p : PyPath) :
    (∀ doc c, read_config env (!disableStrict) fs p = some doc →
      (modify_config_sections false cameraName zoomStr doc).2.1 = true →
      env.copyFails p (get_backup_file_path p backupExt) = false →
      env.writeFails p = true →
      fs p = some c →
      (modify_single_camera_cfg env false cameraName zoomStr backupExt disableStrict
          fs st p).2
        = st.addModified.addErrors)
    ∧ ((find_and_modify_cameras envWriteFail false "Pilot" "0.35" ".bak" false fsEx
          [pathEx]).2.modified
        + (find_and_modify_cameras envWriteFail false "Pilot" "0.35" ".bak" false fsEx
            [pathEx]).2.unchanged
        + (find_and_modify_cameras envWriteFail false "Pilot" "0.35" ".bak" false fsEx
            [pathEx]).2.errors
        ≠ (find_and_modify_cameras envWriteFail false "Pilot" "0.35" ".bak" false fsEx
            [pathEx]).2.total) := by
  constructor
  · intro doc c h hm hc hw hp
    rw [modify_single_write_fail env cameraName zoomStr backupExt disableStrict fs st p
      doc c h hm hc hw hp]
  · decide

/-- Witness for C10: the concrete failing-rewrite run of `envWriteFail`. -/
theorem claim_C10_modified_counted_before_rewrite_witness :
    read_config envWriteFail (!false) fsEx pathEx = some docPilotStale
    ∧ (modify_config_sections false "Pilot" "0.35" docPilotStale).2.1 = true
    ∧ (modify_single_camera_cfg envWriteFail false "Pilot" "0.35" ".bak" false fsEx
        ⟨1, 0, 0, 0⟩ pathEx).2
        = (Stats.addErrors (Stats.addModified ⟨1, 0, 0, 0⟩)) :=
  ⟨rfl, by decide,
    (claim_C10_modified_counted_before_rewrite envWriteFail "Pilot" "0.35" ".bak" false fsEx
      ⟨1, 0, 0, 0⟩ pathEx).1 docPilotStale "orig" rfl (by decide) rfl rfl rfl⟩

/- Branch characterizations of `restore_single_camera_cfg`. -/

/-- No backup on disk: the file is counted unchanged and nothing happens. -/
theorem restore_single_no_backup (env : Env) (dryRun : Bool) (backupExt : String)
    (fs : FS) (st : Stats) (p : PyPath)
    (h : fs (get_backup_file_path p backupExt) = none) :
    restore_single_camera_cfg env dryRun backupExt fs st p = (fs, st.addUnchanged) := by
  simp only [restore_single_camera_cfg]
  rw [h]

/-- Dry-run with a backup present: counted as restored, nothing happens. -/
theorem restore_single_dryrun (env : Env) (backupExt : String)
    (fs : FS) (st : Stats) (p : PyPath) (c : String)
    (h : fs (get_backup_file_path p backupExt) = some c) :
    restore_single_camera_cfg env true backupExt fs st p = (fs, st.addModified) := by
  simp only [restore_single_camera_cfg]
  rw [h]
  simp

/-- A raised restore copy is caught and counted as an error, but line 230
    still counts the file as restored. -/
theorem restore_single_copy_fail (env : Env) (backupExt : String)
    (fs : FS) (st : Stats) (p : PyPath) (c : String)
    (h : fs (get_backup_file_path p backupExt) = some c)
    (hc : env.copyFails (get_backup_file_path p backupExt) p = true) :
    restore_single_camera_cfg env false backupExt fs st p
      = (fs, st.addErrors.addModified) := by
  simp only [restore_single_camera_cfg]
  rw [h]
  simp [hc]

/-- A raised backup removal after a successful copy: the file is restored,
    the backup stays, and both `errors` and `modified` are counted. -/
theorem restore_single_remove_fail (env : Env) (backupExt : String)
    (fs : FS) (st : Stats) (p : PyPath) (c : String)
    (h : fs (get_backup_file_path p backupExt) = some c)
    (hc : env.copyFails (get_backup_file_path p backupExt) p = false)
    (hr : env.removeFails (get_backup_file_path p backupExt) = true) :
    restore_single_camera_cfg env false backupExt fs st p
      = (fsWrite fs p c, st.addErrors.addModified) := by
  simp only [restore_single_camera_cfg]
  rw [h]
  simp [hc, hr]

/-- The fully successful restore: the backup is copied over the file and
    then removed, and the file is counted as restored. -/
theorem restore_single_success (env : Env) (backupExt : String)
    (fs : FS) (st : Stats) (p : PyPath) (c : String)
    (h : fs (get_backup_file_path p backupExt) = some c)
    (hc : env.copyFails (get_backup_file_path p backupExt) p = false)
    (hr : env.removeFails (get_backup_file_path p backupExt) = false) :
    restore_single_camera_cfg env false backupExt fs st p
      = (fsRemove (fsWrite fs p c) (get_backup_file_path p backupExt),
         st.addModified) := by
  simp only [restore_single_camera_cfg]
  rw [h]
  simp [hc, hr]

/-- The rewritten document that the first modify run of `envEx` produces. -/
def docPilotNew : List CSection :=
  [⟨"CAMERADEFINITION_0", [("Title", "Pilot"), ("InitialZoom", "0.35")]⟩]

/-- An environment whose parser also understands the serialized rewrite, so
    a second run can read what the first run wrote. -/
def envRoundTrip : Env :=
  { envEx with parse := fun _ c =>
      if c = "orig" then some docPilotStale
      else if c = "rewritten" then some docPilotNew
      else none }

/-- Claim C6: modify is idempotent.  The section loop run again over its own
    output modifies nothing, and a file that a first successful run rewrote
    is, on a second run with the same title and zoom, counted unchanged and
    left untouched. -/
theorem claim_C6_modify_idempotent (env : Env)
    (cameraName zoomStr backupExt : String) (disableStrict : Bool)
    (fs : FS) (st st2 : Stats) (p : PyPath) (doc : List CSection) :
    (modify_config_sections false cameraName zoomStr
        (modify_config_sections false cameraName zoomStr doc).1).2.1 = false
    ∧ (read_config env (!disableStrict) fs p = some doc →
       (modify_config_sections false cameraName zoomStr doc).2.1 = true →
       env.copyFails p (get_backup_file_path p backupExt) = false →
       env.writeFails p = false →
       env.parse (!disableStrict)
           (env.serialize (modify_config_sections false cameraName zoomStr doc).1)
         = some (modify_config_sections false cameraName zoomStr doc).1 →
       modify_single_camera_cfg env false cameraName zoomStr backupExt disableStrict
           (modify_single_camera_cfg env false cameraName zoomStr backupExt disableStrict
             fs st p).1 st2 p
         = ((modify_single_camera_cfg env false cameraName zoomStr backupExt disableStrict
             fs st p).1, st2.addUnchanged)) := by
  constructor
  · rw [modify_config_idem]
  · intro hread hm hc hw hrt
    cases hp : fs p with
    | none =>
      unfold read_config at hread
      rw [hp] at hread
      have hdoc : doc = [] := by
        injection hread with h
        exact h.symm
      subst hdoc
      simp [modify_config_sections] at hm
    | some c =>
      rw [modify_single_success env cameraName zoomStr backupExt disableStrict fs st p
        doc c hread hm hc hw hp]
      have hq : (fsWrite (fsWrite fs (get_backup_file_path p backupExt) c) p
          (env.serialize (modify_config_sections false cameraName zoomStr doc).1)) p
          = some (env.serialize (modify_config_sections false cameraName zoomStr doc).1) := by
        simp [fsWrite]
      have hread2 : read_config env (!disableStrict)
          (fsWrite (fsWrite fs (get_backup_file_path p backupExt) c) p
            (env.serialize (modify_config_sections false cameraName zoomStr doc).1)) p
          = some (modify_config_sections false cameraName zoomStr doc).1 := by
        unfold read_config
        rw [hq]
        exact hrt
      exact modify_single_unchanged env false cameraName zoomStr backupExt disableStrict
        _ st2 p _ hread2 (by rw [modify_config_idem])

/-- Witness for C6: the concrete stale-pilot file rewritten by the first run
    is counted unchanged by the second. -/
theorem claim_C6_modify_idempotent_witness :
    read_config envRoundTrip (!false) fsEx pathEx = some docPilotStale
    ∧ (modify_config_sections false "Pilot" "0.35" docPilotStale).2.1 = true
    ∧ envRoundTrip.parse (!false)
        (envRoundTrip.serialize (modify_config_sections false "Pilot" "0.35" docPilotStale).1)
        = some (modify_config_sections false "Pilot" "0.35" docPilotStale).1
    ∧ modify_single_camera_cfg envRoundTrip false "Pilot" "0.35" ".bak" false
        (modify_single_camera_cfg envRoundTrip false "Pilot" "0.35" ".bak" false fsEx
          ⟨1, 0, 0, 0⟩ pathEx).1 ⟨1, 0, 0, 0⟩ pathEx
        = ((modify_single_camera_cfg envRoundTrip false "Pilot" "0.35" ".bak" false fsEx
            ⟨1, 0, 0, 0⟩ pathEx).1, Stats.addUnchanged ⟨1, 0, 0, 0⟩) :=
  ⟨rfl, by decide, by decide,
    (claim_C6_modify_idempotent envRoundTrip "Pilot" "0.35" ".bak" false fsEx
      ⟨1, 0, 0, 0⟩ ⟨1, 0, 0, 0⟩ pathEx docPilotStale).2
      rfl (by decide) rfl rfl (by decide)⟩

/-- Claim C5: given original content, a modify run that makes a real change
    (backup then rewrite, no I/O failure) followed by a restore run with the
    same backup extension returns the file to exactly its original content
    and removes the backup file. -/
theorem claim_C5_modify_restore_round_trip (env : Env)
    (cameraName zoomStr backupExt : String) (disableStrict : Bool)
    (fs : FS) (st st2 : Stats) (p : PyPath) (c : String) (doc : List CSection) :
    fs p = some c →
    read_config env (!disableStrict) fs p = some doc →
    (modify_config_sections false cameraName zoomStr doc).2.1 = true →
    env.copyFails p (get_backup_file_path p backupExt) = false →
    env.writeFails p = false →
    env.copyFails (get_backup_file_path p backupExt) p = false →
    env.removeFails (get_backup_file_path p backupExt) = false →
    (restore_single_camera_cfg env false backupExt
        (modify_single_camera_cfg env false cameraName zoomStr backupExt disableStrict
          fs st p).1 st2 p).1 p = some c
    ∧ (restore_single_camera_cfg env false backupExt
        (modify_single_camera_cfg env false cameraName zoomStr backupExt disableStrict
          fs st p).1 st2 p).1 (get_backup_file_path p backupExt) = none := by
  intro hp hread hm hc hw hc2 hr2
  have hb : get_backup_file_path p backupExt ≠ p :=
    get_backup_file_path_ne p p backupExt rfl
  rw [modify_single_success env cameraName zoomStr backupExt disableStrict fs st p
    doc c hread hm hc hw hp]
  dsimp only
  have h1 : (fsWrite (fsWrite fs (get_backup_file_path p backupExt) c) p
      (env.serialize (modify_config_sections false cameraName zoomStr doc).1))
      (get_backup_file_path p backupExt) = some c := by
    simp [fsWrite, hb]
  rw [restore_single_success env backupExt _ st2 p c h1 hc2 hr2]
  constructor
  · simp [fsRemove, fsWrite, Ne.symm hb]
  · simp [fsRemove]

/- Dry-run behavior. -/

/-- In dry-run the per-file modify step never touches the filesystem and
    counts the file in exactly one of the three outcome counters. -/
theorem modify_single_dryrun_frame (env : Env)
    (cameraName zoomStr backupExt : String) (disableStrict : Bool)
    (fs : FS) (st : Stats) (p : PyPath) :
    (modify_single_camera_cfg env true cameraName zoomStr backupExt disableStrict
        fs st p).1 = fs
    ∧ (modify_single_camera_cfg env true cameraName zoomStr backupExt disableStrict
          fs st p).2.modified
        + (modify_single_camera_cfg env true cameraName zoomStr backupExt disableStrict
            fs st p).2.unchanged
        + (modify_single_camera_cfg env true cameraName zoomStr backupExt disableStrict
            fs st p).2.errors
        = st.modified + st.unchanged + st.errors + 1
    ∧ (modify_single_camera_cfg env true cameraName zoomStr backupExt disableStrict
        fs st p).2.total = st.total := by
  cases h : read_config env (!disableStrict) fs p with
  | none =>
    rw [modify_single_parse_error env true cameraName zoomStr backupExt disableStrict
      fs st p h]
    refine ⟨rfl, ?_, rfl⟩
    simp [Stats.addErrors]
    omega
  | some doc =>
    by_cases hm : (modify_config_sections true cameraName zoomStr doc).2.1 = true
    · rw [modify_single_dryrun_modified env cameraName zoomStr backupExt disableStrict
        fs st p doc h hm]
      refine ⟨rfl, ?_, rfl⟩
      simp [Stats.addModified]
      omega
    · have hm' : (modify_config_sections true cameraName zoomStr doc).2.1 = false := by
        cases hmc : (modify_config_sections true cameraName zoomStr doc).2.1
        · rfl
        · exact absurd hmc hm
      rw [modify_single_unchanged env true cameraName zoomStr backupExt disableStrict
        fs st p doc h hm']
      refine ⟨rfl, ?_, rfl⟩
      simp [Stats.addUnchanged]
      omega

/-- In dry-run the per-file restore step never touches the filesystem and
    counts the file in exactly one counter. -/
theorem restore_single_dryrun_frame (env : Env) (backupExt : String)
    (fs : FS) (st : Stats) (p : PyPath) :
    (restore_single_camera_cfg env true backupExt fs st p).1 = fs
    ∧ (restore_single_camera_cfg env true backupExt fs st p).2.modified
        + (restore_single_camera_cfg env true backupExt fs st p).2.unchanged
        + (restore_single_camera_cfg env true backupExt fs st p).2.errors
        = st.modified + st.unchanged + st.errors + 1
    ∧ (restore_single_camera_cfg env true backupExt fs st p).2.total = st.total := by
  cases h : fs (get_backup_file_path p backupExt) with
  | none =>
    rw [restore_single_no_backup env true backupExt fs st p h]
    refine ⟨rfl, ?_, rfl⟩
    simp [Stats.addUnchanged]
    omega
  | some c =>
    rw [restore_single_dryrun env backupExt fs st p c h]
    refine ⟨rfl, ?_, rfl⟩
    simp [Stats.addModified]
    omega

/-- The dry-run modify loop leaves the filesystem untouched and accounts
    for every file once. -/
theorem process_modify_dryrun (env : Env)
    (cameraName zoomStr backupExt : String) (disableStrict : Bool)
    (paths : List PyPath) :
    ∀ (fs : FS) (st : Stats),
      (process_modify env true cameraName zoomStr backupExt disableStrict
          fs st paths).1 = fs
      ∧ (process_modify env true cameraName zoomStr backupExt disableStrict
            fs st paths).2.modified
          + (process_modify env true cameraName zoomStr backupExt disableStrict
              fs st paths).2.unchanged
          + (process_modify env true cameraName zoomStr backupExt disableStrict
              fs st paths).2.errors
          = st.modified + st.unchanged + st.errors + paths.length
      ∧ (process_modify env true cameraName zoomStr backupExt disableStrict
          fs st paths).2.total = st.total := by
  induction paths with
  | nil =>
    intro fs st
    exact ⟨rfl, by simp [process_modify], rfl⟩
  | cons p ps ih =>
    intro fs st
    obtain ⟨h1, h2, h3⟩ := modify_single_dryrun_frame env cameraName zoomStr backupExt
      disableStrict fs st p
    simp only [process_modify]
    rw [h1]
    obtain ⟨g1, g2, g3⟩ := ih fs
      (modify_single_camera_cfg env true cameraName zoomStr backupExt disableStrict
        fs st p).2
    refine ⟨g1, ?_, g3.trans h3⟩
    rw [g2]
    simp only [List.length_cons]
    omega

/-- The dry-run restore loop leaves the filesystem untouched and accounts
    for every file once. -/
theorem process_restore_dryrun (env : Env) (backupExt : String)
    (paths : List PyPath) :
    ∀ (fs : FS) (st : Stats),
      (process_restore env true backupExt fs st paths).1 = fs
      ∧ (process_restore env true backupExt fs st paths).2.modified
          + (process_restore env true backupExt fs st paths).2.unchanged
          + (process_restore env true backupExt fs st paths).2.errors
          = st.modified + st.unchanged + st.errors + paths.length
      ∧ (process_restore env true backupExt fs st paths).2.total = st.total := by
  induction paths with
  | nil =>
    intro fs st
    exact ⟨rfl, by simp [process_restore], rfl⟩
  | cons p ps ih =>
    intro fs st
    obtain ⟨h1, h2, h3⟩ := restore_single_dryrun_frame env backupExt fs st p
    simp only [process_restore]
    rw [h1]
    obtain ⟨g1, g2, g3⟩ := ih fs (restore_single_camera_cfg env true backupExt fs st p).2
    refine ⟨g1, ?_, g3.trans h3⟩
    rw [g2]
    simp only [List.length_cons]
    omega

/-- Claim C9: under dry-run neither flow writes, copies or removes any file
    — the filesystem after the run is the one before it — while the run
    still produces the full counter summary: `total` is the number of
    discovered files and every file is accounted for in
    modified + unchanged + errored. -/
theorem claim_C9_dry_run_no_side_effects (env : Env)
    (cameraName zoomStr backupExt : String) (disableStrict : Bool)
    (fs : FS) (paths : List PyPath) :
    (find_and_modify_cameras env true cameraName zoomStr backupExt disableStrict
        fs paths).1 = fs
    ∧ (find_and_restore_cameras env true backupExt fs paths).1 = fs
    ∧ (find_and_modify_cameras env true cameraName zoomStr backupExt disableStrict
        fs paths).2.total = paths.length
    ∧ (find_and_modify_cameras env true cameraName zoomStr backupExt disableStrict
          fs paths).2.modified
        + (find_and_modify_cameras env true cameraName zoomStr backupExt disableStrict
            fs paths).2.unchanged
        + (find_and_modify_cameras env true cameraName zoomStr backupExt disableStrict
            fs paths).2.errors
        = paths.length
    ∧ (find_and_restore_cameras env true backupExt fs paths).2.total = paths.length
    ∧ (find_and_restore_cameras env true backupExt fs paths).2.modified
        + (find_and_restore_cameras env true backupExt fs paths).2.unchanged
        + (find_and_restore_cameras env true backupExt fs paths).2.errors
        = paths.length := by
  obtain ⟨h1, h2, h3⟩ := process_modify_dryrun env cameraName zoomStr backupExt
    disableStrict paths fs ⟨paths.length, 0, 0, 0⟩
  obtain ⟨g1, g2, g3⟩ := process_restore_dryrun env backupExt paths fs
    ⟨paths.length, 0, 0, 0⟩
  exact ⟨h1, g1, h3, by simpa using h2, g3, by simpa using g2⟩

/- The restore flow's counters. -/

/-- An environment whose copies raise, used to exercise failing restores. -/
def envCopyFail : Env := { envEx with copyFails := fun _ _ => true }

/-- A filesystem holding one camera file and its backup. -/
def fsWithBackup : FS := fun q =>
  if q = pathEx then some "current"
  else if q = get_backup_file_path pathEx ".bak" then some "orig"
  else none

/-- Counterexample to claim C2 as stated: in a one-file restore run whose
    copy raises, the file is NOT restored (it still holds its pre-run
    content and the backup is still there), yet the run ends with
    modified = 1 — the line-230 increment sits outside the `try`/`except`,
    so `modified` does not count only successful restores and an I/O
    failure does not increment only the error counter. -/
theorem claim_C2_counterexample :
    (find_and_restore_cameras envCopyFail false ".bak" fsWithBackup [pathEx]).2.modified = 1
    ∧ (find_and_restore_cameras envCopyFail false ".bak" fsWithBackup [pathEx]).2.errors = 1
    ∧ (find_and_restore_cameras envCopyFail false ".bak" fsWithBackup [pathEx]).1 pathEx
        = some "current"
    ∧ (find_and_restore_cameras envCopyFail false ".bak" fsWithBackup [pathEx]).1
        (get_backup_file_path pathEx ".bak") = some "orig" := by
  refine ⟨?_, ?_, ?_, ?_⟩ <;> decide

/-- Whether a backup for `p` exists on `fs` (restore line 217). -/
def backup_present (backupExt : String) (fs : FS) (p : PyPath) : Bool :=
  (fs (get_backup_file_path p backupExt)).isSome

/-- Whether restoring `p` raises (a failing copy, or a failing removal
    after a successful copy). -/
def restore_raises (env : Env) (backupExt : String) (fs : FS) (p : PyPath) : Bool :=
  backup_present backupExt fs p
    && (env.copyFails (get_backup_file_path p backupExt) p
        || env.removeFails (get_backup_file_path p backupExt))

/-- What the restore loop counts: `total` is untouched, `modified` counts
    the files whose backup existed (restore attempted), `unchanged` those
    with no backup, `errors` the files whose restore raised.  Holds for
    pairwise distinct discovered files sharing one suffix, as `os.walk`
    discovery produces (every file is named `cameras.cfg`). -/
theorem process_restore_counts (env : Env) (backupExt s : String)
    (paths : List PyPath) :
    ∀ (fs : FS) (st : Stats),
      paths.Nodup → (∀ p ∈ paths, p.suffix = s) →
      (process_restore env false backupExt fs st paths).2.total = st.total
      ∧ (process_restore env false backupExt fs st paths).2.modified
          = st.modified + paths.countP (backup_present backupExt fs)
      ∧ (process_restore env false backupExt fs st paths).2.unchanged
          = st.unchanged + paths.countP (fun q => !backup_present backupExt fs q)
      ∧ (process_restore env false backupExt fs st paths).2.errors
          = st.errors + paths.countP (restore_raises env backupExt fs) := by
  induction paths with
  | nil =>
    intro fs st _ _
    simp [process_restore]
  | cons p ps ih =>
    intro fs st hnd hs
    have hmem : p ∉ ps := (List.nodup_cons.mp hnd).1
    have hndps : ps.Nodup := (List.nodup_cons.mp hnd).2
    have hsp : p.suffix = s := hs p (List.mem_cons_self p ps)
    have hsps : ∀ q ∈ ps, q.suffix = s := fun q hq => hs q (List.mem_cons_of_mem p hq)
    have hner : ∀ q ∈ ps, get_backup_file_path q backupExt ≠ p := fun q hq =>
      get_backup_file_path_ne p q backupExt ((hsps q hq).trans hsp.symm)
    have hnebp : ∀ q ∈ ps,
        get_backup_file_path q backupExt ≠ get_backup_file_path p backupExt := by
      intro q hq he
      exact hmem ((get_backup_file_path_inj p q backupExt
        ((hsps q hq).trans hsp.symm) he) ▸ hq)
    cases hb : fs (get_backup_file_path p backupExt) with
    | none =>
      have hpred : backup_present backupExt fs p = false := by
        simp [backup_present, hb]
      simp only [process_restore]
      rw [restore_single_no_backup env false backupExt fs st p hb]
      dsimp only
      obtain ⟨h1, h2, h3, h4⟩ := ih fs st.addUnchanged hndps hsps
      have hraises : restore_raises env backupExt fs p = false := by
        simp [restore_raises, hpred]
      refine ⟨h1, ?_, ?_, ?_⟩
      · rw [h2]
        simp [Stats.addUnchanged, List.countP_cons, hpred]
      · rw [h3]
        simp [Stats.addUnchanged, List.countP_cons, hpred]
        omega
      · rw [h4]
        simp [Stats.addUnchanged, List.countP_cons, hraises]
    | some c =>
      have hpred : backup_present backupExt fs p = true := by
        simp [backup_present, hb]
      cases hc : env.copyFails (get_backup_file_path p backupExt) p with
      | true =>
        have hraises : restore_raises env backupExt fs p = true := by
          simp [restore_raises, hpred, hc]
        simp only [process_restore]
        rw [restore_single_copy_fail env backupExt fs st p c hb hc]
        dsimp only
        obtain ⟨h1, h2, h3, h4⟩ := ih fs st.addErrors.addModified hndps hsps
        refine ⟨h1, ?_, ?_, ?_⟩
        · rw [h2]
          simp [Stats.addErrors, Stats.addModified, List.countP_cons, hpred]
          omega
        · rw [h3]
          simp [Stats.addErrors, Stats.addModified, List.countP_cons, hpred]
        · rw [h4]
          simp [Stats.addErrors, Stats.addModified, List.countP_cons, hraises]
          omega
      | false =>
        cases hr : env.removeFails (get_backup_file_path p backupExt) with
        | true =>
          have hraises : restore_raises env backupExt fs p = true := by
            simp [restore_raises, hpred, hr]
          have hag : ∀ q ∈ ps,
              (fsWrite fs p c) (get_backup_file_path q backupExt)
                = fs (get_backup_file_path q backupExt) := by
            intro q hq
            simp [fsWrite, hner q hq]
          have e1 : ps.countP (backup_present backupExt (fsWrite fs p c))
              = ps.countP (backup_present backupExt fs) :=
            List.countP_congr fun q hq => by simp [backup_present, hag q hq]
          have e2 : ps.countP (fun q => !backup_present backupExt (fsWrite fs p c) q)
              = ps.countP (fun q => !backup_present backupExt fs q) :=
            List.countP_congr fun q hq => by simp [backup_present, hag q hq]
          have e3 : ps.countP (restore_raises env backupExt (fsWrite fs p c))
              = ps.countP (restore_raises env backupExt fs) :=
            List.countP_congr fun q hq => by
              simp [restore_raises, backup_present, hag q hq]
          simp only [process_restore]
          rw [restore_single_remove_fail env backupExt fs st p c hb hc hr]
          dsimp only
          obtain ⟨h1, h2, h3, h4⟩ :=
            ih (fsWrite fs p c) st.addErrors.addModified hndps hsps
          refine ⟨h1, ?_, ?_, ?_⟩
          · rw [h2, e1]
            simp [Stats.addErrors, Stats.addModified, List.countP_cons, hpred]
            omega
          · rw [h3, e2]
            simp [Stats.addErrors, Stats.addModified, List.countP_cons, hpred]
          · rw [h4, e3]
            simp [Stats.addErrors, Stats.addModified, List.countP_cons, hraises]
            omega
        | false =>
          have hraises : restore_raises env backupExt fs p = false := by
            simp [restore_raises, hc, hr]
          have hag : ∀ q ∈ ps,
              (fsRemove (fsWrite fs p c) (get_backup_file_path p backupExt))
                  (get_backup_file_path q backupExt)
                = fs (get_backup_file_path q backupExt) := by
            intro q hq
            simp [fsRemove, fsWrite, hner q hq, hnebp q hq]
          have e1 : ps.countP (backup_present backupExt
                (fsRemove (fsWrite fs p c) (get_backup_file_path p backupExt)))
              = ps.countP (backup_present backupExt fs) :=
            List.countP_congr fun q hq => by simp [backup_present, hag q hq]
          have e2 : ps.countP (fun q => !backup_present backupExt
                (fsRemove (fsWrite fs p c) (get_backup_file_path p backupExt)) q)
              = ps.countP (fun q => !backup_present backupExt fs q) :=
            List.countP_congr fun q hq => by simp [backup_present, hag q hq]
          have e3 : ps.countP (restore_raises env backupExt
                (fsRemove (fsWrite fs p c) (get_backup_file_path p backupExt)))
              = ps.countP (restore_raises env backupExt fs) :=
            List.countP_congr fun q hq => by
              simp [restore_raises, backup_present, hag q hq]
          simp only [process_restore]
          rw [restore_single_success env backupExt fs st p c hb hc hr]
          dsimp only
          obtain ⟨h1, h2, h3, h4⟩ :=
            ih (fsRemove (fsWrite fs p c) (get_backup_file_path p backupExt))
              st.addModified hndps hsps
          refine ⟨h1, ?_, ?_, ?_⟩
          · rw [h2, e1]
            simp [Stats.addModified, List.countP_cons, hpred]
            omega
          · rw [h3, e2]
            simp [Stats.addModified, List.countP_cons, hpred]
          · rw [h4, e3]
            simp [Stats.addModified, List.countP_cons, hraises]

/-- Claim C2, amended: in the restore flow `modified` counts exactly the
    files whose backup existed when they were processed (every attempted
    restore, failed ones included — not only the successful ones),
    `unchanged` counts exactly the files with no backup, and a restore I/O
    failure is caught per file, increments the error counter (in addition
    to `modified`), and does not abort the batch: every discovered file is
    still processed and accounted for. -/
theorem claim_C2_amended_restore_counters (env : Env) (backupExt s : String)
    (fs : FS) (paths : List PyPath)
    (hnd : paths.Nodup) (hs : ∀ p ∈ paths, p.suffix = s) :
    (find_and_restore_cameras env false backupExt fs paths).2.total = paths.length
    ∧ (find_and_restore_cameras env false backupExt fs paths).2.modified
        = paths.countP (backup_present backupExt fs)
    ∧ (find_and_restore_cameras env false backupExt fs paths).2.unchanged
        = paths.countP (fun q => !backup_present backupExt fs q)
    ∧ (find_and_restore_cameras env false backupExt fs paths).2.errors
        = paths.countP (restore_raises env backupExt fs) := by
  obtain ⟨h1, h2, h3, h4⟩ := process_restore_counts env backupExt s paths fs
    ⟨paths.length, 0, 0, 0⟩ hnd hs
  exact ⟨h1, by simpa using h2, by simpa using h3, by simpa using h4⟩

/-- Witness for the amended C2 on the concrete failing-restore run. -/
theorem claim_C2_amended_restore_counters_witness :
    [pathEx].Nodup
    ∧ (∀ p ∈ [pathEx], p.suffix = ".cfg")
    ∧ (find_and_restore_cameras envCopyFail false ".bak" fsWithBackup [pathEx]).2.modified
        = [pathEx].countP (backup_present ".bak" fsWithBackup)
    ∧ (find_and_restore_cameras envCopyFail false ".bak" fsWithBackup [pathEx]).2.errors
        = [pathEx].countP (restore_raises envCopyFail ".bak" fsWithBackup) :=
  ⟨List.nodup_singleton pathEx, by decide,
    (claim_C2_amended_restore_counters envCopyFail ".bak" ".cfg" fsWithBackup [pathEx]
      (List.nodup_singleton pathEx) (by decide)).2.1,
    (claim_C2_amended_restore_counters envCopyFail ".bak" ".cfg" fsWithBackup [pathEx]
      (List.nodup_singleton pathEx) (by decide)).2.2.2⟩

/-- Witness for C5: the concrete stale-pilot file, modified then restored,
    holds its original bytes again and the backup is gone. -/
theorem claim_C5_modify_restore_round_trip_witness :
    fsEx pathEx = some "orig"
    ∧ (modify_config_sections false "Pilot" "0.35" docPilotStale).2.1 = true
    ∧ (restore_single_camera_cfg envEx false ".bak"
        (modify_single_camera_cfg envEx false "Pilot" "0.35" ".bak" false fsEx
          ⟨1, 0, 0, 0⟩ pathEx).1 ⟨1, 0, 0, 0⟩ pathEx).1 pathEx = some "orig"
    ∧ (restore_single_camera_cfg envEx false ".bak"
        (modify_single_camera_cfg envEx false "Pilot" "0.35" ".bak" false fsEx
          ⟨1, 0, 0, 0⟩ pathEx).1 ⟨1, 0, 0, 0⟩ pathEx).1
        (get_backup_file_path pathEx ".bak") = none :=
  ⟨rfl, by decide,
    (claim_C5_modify_restore_round_trip envEx "Pilot" "0.35" ".bak" false fsEx
      ⟨1, 0, 0, 0⟩ ⟨1, 0, 0, 0⟩ pathEx "orig" docPilotStale
      rfl rfl (by decide) rfl rfl rfl rfl).1,
    (claim_C5_modify_restore_round_trip envEx "Pilot" "0.35" ".bak" false fsEx
      ⟨1, 0, 0, 0⟩ ⟨1, 0, 0, 0⟩ pathEx "orig" docPilotStale
      rfl rfl (by decide) rfl rfl rfl rfl).2⟩
